import Mathlib

/-!
Shallow embedding of the RFO rocket-fuel-optimization backend:
the in-memory job queue (`src/backend/worker.py`), the optimization
engine (`src/backend/engine.py`), and the API experiment lifecycle
(`src/backend/api.py`). Python dictionaries become association lists,
floats become rationals, futures become an explicit handle state, and
fallible library calls become `Except` oracles supplied as parameters.
-/

namespace RFO

/-- Job status values used by the queue and API ('queued', 'running',
'completed', 'failed', 'not_found' in the Python source). -/
inductive JobStatus
  | queued
  | running
  | completed
  | failed
  | not_found
  deriving DecidableEq, Repr

/-- State of the `concurrent.futures.Future` handle attached to a job:
still running, finished normally, or finished by raising a fault whose
textual description is `msg`. -/
inductive FutureState
  | pending
  | doneOk
  | doneErr (msg : String)
  deriving DecidableEq, Repr

/-- One record of `JobQueue.jobs` (worker.py lines 23-29): status,
progress, message, creation timestamp, and the optional future handle
(`None` between registration and submission). -/
structure JobRecord where
  status : JobStatus
  progress : ℚ
  message : String
  createdAt : ℚ
  future : Option FutureState
  deriving DecidableEq, Repr

/-- The job table `self.jobs : Dict[str, Dict]`, as an association list
with unique keys kept in insertion order (Python dict semantics). -/
abbrev JobQueue := List (String × JobRecord)

/-- Dictionary lookup `self.jobs[job_id]` / `job_id in self.jobs`. -/
def lookupJob : JobQueue → String → Option JobRecord
  | [], _ => none
  | (k, v) :: rest, id => if k = id then some v else lookupJob rest id

/-- Dictionary assignment `self.jobs[job_id] = v`: replaces the binding
in place if the key exists, otherwise appends it. -/
def setJob : JobQueue → String → JobRecord → JobQueue
  | [], id, v => [(id, v)]
  | (k, w) :: rest, id, v =>
      if k = id then (k, v) :: rest else (k, w) :: setJob rest id v

/-- `job['status'] in ['completed', 'failed']` (worker.py line 52). -/
def isTerminal (s : JobStatus) : Bool :=
  s = JobStatus.completed || s = JobStatus.failed

/-- `job['future'] and job['future'].done()` (worker.py line 51). -/
def futureDone : Option FutureState → Bool
  | none => false
  | some FutureState.pending => false
  | some FutureState.doneOk => true
  | some (FutureState.doneErr _) => true

/-- The lazy terminal resolution performed inside `get_job_status`
(worker.py lines 50-62): if the future is done and the record is not
already terminal, `future.result()` either returns (record becomes
completed/1.0) or raises (record becomes failed/0.0 with the fault text). -/
def resolveJob (job : JobRecord) : JobRecord :=
  if futureDone job.future && !(isTerminal job.status) then
    match job.future with
    | some FutureState.doneOk =>
        if job.status ≠ JobStatus.failed then
          { job with status := JobStatus.completed, progress := 1,
                     message := "Job completed" }
        else job
    | some (FutureState.doneErr e) =>
        { job with status := JobStatus.failed, progress := 0,
                   message := "Job failed: " ++ e }
    | _ => job
  else job

/-- The dictionary returned by `get_job_status`: status, progress,
message (worker.py lines 42-46 and 64-68). -/
structure StatusView where
  status : JobStatus
  progress : ℚ
  message : String
  deriving DecidableEq, Repr

/-- `JobQueue.get_job_status` (worker.py lines 38-68): returns the
not_found view for unknown identifiers; otherwise lazily resolves a done
future and returns the (possibly updated) record's view together with
the updated table. -/
def get_job_status (q : JobQueue) (job_id : String) : StatusView × JobQueue :=
  match lookupJob q job_id with
  | none => (⟨JobStatus.not_found, 0, "Job not found"⟩, q)
  | some job =>
      let job2 := resolveJob job
      (⟨job2.status, job2.progress, job2.message⟩, setJob q job_id job2)

/-- `JobQueue.update_job_status` (worker.py lines 70-76): overwrites
status/progress/message if the identifier is registered, otherwise does
nothing. -/
def update_job_status (q : JobQueue) (job_id : String) (status : JobStatus)
    (progress : ℚ) (message : String) : JobQueue :=
  match lookupJob q job_id with
  | none => q
  | some r =>
      setJob q job_id { r with status := status, progress := progress,
                               message := message }

/-- `JobQueue.enqueue_job` (worker.py lines 20-36): registers a
queued/0.0 record, submits the task (the resulting handle is the `fut`
parameter), then stores the handle and sets status to running. -/
def enqueue_job (q : JobQueue) (job_id : String) (now : ℚ)
    (fut : FutureState) : JobQueue :=
  let q1 := setJob q job_id
    ⟨JobStatus.queued, 0, "Job queued", now, none⟩
  match lookupJob q1 job_id with
  | some r => setJob q1 job_id { r with future := some fut,
                                        status := JobStatus.running }
  | none => q1

/-- `JobQueue.cleanup_completed_jobs` (worker.py lines 78-90): removes
terminal records created before the cutoff. -/
def cleanup_completed_jobs (q : JobQueue) (nowTs : ℚ)
    (max_age_hours : ℚ) : JobQueue :=
  let cutoff := nowTs - max_age_hours * 3600
  q.filter (fun kv => !(isTerminal kv.2.status && decide (kv.2.createdAt < cutoff)))

theorem lookupJob_setJob_self (q : JobQueue) (id : String) (v : JobRecord) :
    lookupJob (setJob q id v) id = some v := by
  induction q with
  | nil => simp [setJob, lookupJob]
  | cons kv rest ih =>
      obtain ⟨k, w⟩ := kv
      by_cases h : k = id
      · simp [setJob, lookupJob, h]
      · simp [setJob, lookupJob, h, ih]

theorem lookupJob_setJob_other (q : JobQueue) (id id2 : String)
    (v : JobRecord) (h : id ≠ id2) :
    lookupJob (setJob q id v) id2 = lookupJob q id2 := by
  induction q with
  | nil => simp [setJob, lookupJob, h]
  | cons kv rest ih =>
      obtain ⟨k, w⟩ := kv
      by_cases hk : k = id
      · subst hk
        simp [setJob, lookupJob, h]
      · simp [setJob, lookupJob, hk, ih]

/-- One externally visible operation of the job queue, used to reason
about traces (sequences of queue calls). -/
inductive Op
  | enq (id : String) (now : ℚ) (fut : FutureState)
  | poll (id : String)
  | upd (id : String) (st : JobStatus) (p : ℚ) (m : String)
  | clean (nowTs maxAge : ℚ)
  deriving DecidableEq, Repr

/-- Apply one queue operation to the table. -/
def applyOp (q : JobQueue) : Op → JobQueue
  | Op.enq id now fut => enqueue_job q id now fut
  | Op.poll id => (get_job_status q id).2
  | Op.upd id st p m => update_job_status q id st p m
  | Op.clean nowTs maxAge => cleanup_completed_jobs q nowTs maxAge

/-- Apply a sequence of queue operations, oldest first. -/
def applyOps (q : JobQueue) (ops : List Op) : JobQueue :=
  List.foldl applyOp q ops

/-! ## Engine (`src/backend/engine.py`) -/

/-- A trained predictor: `model.predict` on the single-row frame built
from (O/F ratio, chamber pressure, combustion temp, specific impulse). -/
structure Model where
  predict : ℚ → ℚ → ℚ → ℚ → ℚ

/-- The four physical parameters handed to `simulate`. -/
structure SimParams where
  O_F_ratio : ℚ
  pressure : ℚ
  temp : ℚ
  isp : ℚ
  deriving DecidableEq, Repr

/-- The dictionary returned by `simulate` (engine.py lines 56-61). -/
structure SimResult where
  thrust : ℚ
  efficiency : ℚ
  temperature_ratio : ℚ
  params : SimParams
  deriving DecidableEq, Repr

/-- `simulate` (engine.py lines 37-61): model inference on the single
input row, efficiency normalised by pressure×isp, temperature ratio
normalised against 3000. -/
def simulate (params : SimParams) (model : Model) : SimResult :=
  let predicted_thrust :=
    model.predict params.O_F_ratio params.pressure params.temp params.isp
  ⟨predicted_thrust,
   predicted_thrust / (params.pressure * params.isp),
   params.temp / 3000,
   params⟩

/-- The inner `objective` of `optimize_fuel_mixture` (engine.py lines
75-84): specific impulse is held fixed at 300 in the prediction row. -/
def objective (model : Model) (alpha : ℚ) (O_F p T : ℚ) : ℚ :=
  alpha * (-(model.predict O_F p T 300)) + (1 - alpha) * T

/-- The value returned by `scipy.optimize.minimize`: success flag, the
point `x` (three coordinates), objective value `fun`, and diagnostic
message. The minimizer itself is library code outside this repository,
so it enters the embedding as an oracle producing such a value. -/
structure MinimizeResult where
  success : Bool
  x0 : ℚ
  x1 : ℚ
  x2 : ℚ
  fval : ℚ
  message : String
  deriving DecidableEq, Repr

/-- The dictionary returned by `optimize_fuel_mixture`: either the
success payload (engine.py lines 104-109) or the failure payload
(lines 110-114). -/
inductive OptResult
  | success (optimal_params : SimParams) (predicted_thrust : ℚ)
      (optimization_value : ℚ)
  | failure (error : String)
  deriving DecidableEq, Repr

/-- The minimization problem handed to `scipy.optimize.minimize`
(engine.py lines 86-92): objective, the single inequality constraint
function, the variable bounds, and the initial guess. -/
structure MinProblem where
  obj : ℚ × ℚ × ℚ → ℚ
  ineqConstraint : ℚ × ℚ × ℚ → ℚ
  bounds : List (ℚ × ℚ)
  guess : ℚ × ℚ × ℚ

/-- `optimize_fuel_mixture` (engine.py lines 64-114). The minimizer is
library code outside this repository, so it enters as a solver oracle
taking the problem and an invocation index; the source calls `minimize`
exactly once, so only index 0 is consulted. On success the optimal
parameters take the solver's point with isp fixed at 300 and a fresh
`simulate` call supplies the predicted thrust; otherwise the structured
failure carries the solver's message. -/
def optProblem (model : Model) (alpha max_temp : ℚ) : MinProblem :=
  { obj := fun v => objective model alpha v.1 v.2.1 v.2.2,
    ineqConstraint := fun v => max_temp - v.2.2,
    bounds := [(2, 6), (1, 10), (2500, 5000)],
    guess := (7/2, 5, 3000) }

/-- Body of `optimize_fuel_mixture` after the problem construction:
consult the solver once and branch on its success flag. -/
def optimize_fuel_mixture (model : Model) (alpha max_temp : ℚ)
    (solver : MinProblem → Nat → MinimizeResult) : OptResult :=
  let result := solver (optProblem model alpha max_temp) 0
  if result.success then
    let optimal_params : SimParams := ⟨result.x0, result.x1, result.x2, 300⟩
    let simulation_result := simulate optimal_params model
    OptResult.success optimal_params simulation_result.thrust result.fval
  else
    OptResult.failure result.message

/-- The declared search box of the optimizer (engine.py line 89) plus
the inequality constraint (line 87), as a predicate on a solver point. -/
def inOptBounds (max_temp : ℚ) (r : MinimizeResult) : Prop :=
  2 ≤ r.x0 ∧ r.x0 ≤ 6 ∧ 1 ≤ r.x1 ∧ r.x1 ≤ 10 ∧
  2500 ≤ r.x2 ∧ r.x2 ≤ 5000 ∧ r.x2 ≤ max_temp

/-! ## API layer (`src/backend/api.py`) -/

/-- A `POST /run` request body before validation: the four required
physical fields plus the three optional fields (absent fields become
their pydantic defaults only after validation succeeds). -/
structure RawParams where
  O_F_ratio : ℚ
  pressure : ℚ
  temp : ℚ
  isp : ℚ
  alpha : Option ℚ
  max_temp : Option ℚ
  tune_model : Option Bool
  deriving DecidableEq, Repr

/-- The pydantic `Field(ge=..., le=...)` range checks of
`ExperimentParams` (api.py lines 26-34); `max_temp` and `tune_model`
carry no bounds. -/
def paramsValid (r : RawParams) : Bool :=
  decide (2 ≤ r.O_F_ratio) && decide (r.O_F_ratio ≤ 6) &&
  decide (1 ≤ r.pressure) && decide (r.pressure ≤ 10) &&
  decide (2500 ≤ r.temp) && decide (r.temp ≤ 5000) &&
  decide (200 ≤ r.isp) && decide (r.isp ≤ 450) &&
  (match r.alpha with
   | none => true
   | some a => decide (0 ≤ a) && decide (a ≤ 1))

/-- A validated `ExperimentParams` value, with pydantic defaults
(alpha=0.5, max_temp=4000.0, tune_model=False) filled in. `alpha` stays
optional: a request may pass an explicit null, and the task skips
optimization exactly when it is null. -/
structure ValidatedParams where
  O_F_ratio : ℚ
  pressure : ℚ
  temp : ℚ
  isp : ℚ
  alpha : Option ℚ
  max_temp : ℚ
  tune_model : Bool
  deriving DecidableEq, Repr

/-- Fill in the pydantic defaults of `ExperimentParams` for absent
optional fields. -/
def applyDefaults (r : RawParams) : ValidatedParams :=
  ⟨r.O_F_ratio, r.pressure, r.temp, r.isp, r.alpha,
   r.max_temp.getD 4000, r.tune_model.getD false⟩

/-- A row of the `experiments` table (api.py lines 87-91): identifier,
parameters, status, creation time. -/
structure ExperimentRow where
  id : String
  params : ValidatedParams
  status : JobStatus
  createdAt : ℚ
  deriving DecidableEq, Repr

/-- A row of the `results` table as written by `_run_experiment_task`
(api.py lines 186-191 and 205-210): result payload on success, error
message on failure. -/
structure ResultRecord where
  experiment_id : String
  status : JobStatus
  data : Option (SimResult × Option OptResult × List (String × ℚ))
  error_message : Option String
  completedAt : ℚ
  deriving DecidableEq, Repr

/-- The persisted state: the experiments table and the results table. -/
structure Db where
  experiments : List ExperimentRow
  results : List ResultRecord
  deriving DecidableEq, Repr

/-- Server-side state touched by the endpoints: the database and the
global in-memory job queue. -/
structure ServerState where
  db : Db
  queue : JobQueue
  deriving DecidableEq, Repr

/-- Response of `POST /run`: either the accepted `JobResponse`
(api.py lines 98-102) or the framework's 422 validation rejection
issued before the handler body runs. -/
inductive RunResponse
  | accepted (job_id : String) (status : JobStatus) (message : String)
  | validationError (code : Nat)
  deriving DecidableEq, Repr

/-- `POST /run` (api.py lines 80-102) together with the framework
validation step: an out-of-bound body is rejected with 422 before the
handler runs; otherwise the experiment row is persisted and the job
enqueued (the submitted future handle is the `fut` parameter). -/
def run_experiment (st : ServerState) (raw : RawParams) (job_id : String)
    (now : ℚ) (fut : FutureState) : RunResponse × ServerState :=
  if paramsValid raw then
    let params := applyDefaults raw
    let db2 : Db :=
      { st.db with experiments :=
          st.db.experiments ++ [⟨job_id, params, JobStatus.queued, now⟩] }
    let q2 := enqueue_job st.queue job_id now fut
    (RunResponse.accepted job_id JobStatus.queued
       "Experiment queued successfully", ⟨db2, q2⟩)
  else
    (RunResponse.validationError 422, st)

/-- `experiment.status = ...` followed by commit: update the status of
the experiment row with the given identifier. -/
def setExpStatus (rows : List ExperimentRow) (id : String)
    (st : JobStatus) : List ExperimentRow :=
  rows.map (fun r => if r.id = id then { r with status := st } else r)

/-- Outcomes of the fallible steps inside `_run_experiment_task`: model
loading, model inference during `simulate`, and the optimization call
(whose own inference may raise even though non-convergence does not).
`metrics` is the cached training-metrics payload and `now` the
completion timestamp. -/
structure TaskEnv where
  modelLoad : Except String Unit
  simOutcome : Except String SimResult
  optOutcome : Except String OptResult
  metrics : List (String × ℚ)
  now : ℚ
  deriving Repr

/-- The catch-all failure path of `_run_experiment_task` (api.py lines
201-217): one failed result row, experiment marked failed, queue updated
to failed with progress 0.0. -/
def taskFailPath (job_id : String) (e : String) (env : TaskEnv)
    (q : JobQueue) (db : Db) : JobQueue × Db :=
  let db2 : Db :=
    { experiments := setExpStatus db.experiments job_id JobStatus.failed,
      results := db.results ++
        [⟨job_id, JobStatus.failed, none, some e, env.now⟩] }
  (update_job_status q job_id JobStatus.failed 0
     ("Experiment failed: " ++ e), db2)

/-- `_run_experiment_task` (api.py lines 146-217): pushes four progress
checkpoints, runs the fallible steps in order, and writes exactly one
result row — completed with the full payload, or failed with the first
fault's description via the catch-all boundary. Optimization runs only
when `alpha` is not null. -/
def run_experiment_task (env : TaskEnv) (job_id : String)
    (alphaPresent : Bool) (q : JobQueue) (db : Db) : JobQueue × Db :=
  let q1 := update_job_status q job_id JobStatus.running (1/10)
    "Starting experiment"
  match env.modelLoad with
  | Except.error e => taskFailPath job_id e env q1 db
  | Except.ok _ =>
    let q2 := update_job_status q1 job_id JobStatus.running (3/10)
      "Model loaded"
    match env.simOutcome with
    | Except.error e => taskFailPath job_id e env q2 db
    | Except.ok simulation_result =>
      let q3 := update_job_status q2 job_id JobStatus.running (6/10)
        "Simulation completed"
      match (if alphaPresent then Except.map some env.optOutcome
             else Except.ok none : Except String (Option OptResult)) with
      | Except.error e => taskFailPath job_id e env q3 db
      | Except.ok optimization_result =>
        let q4 := update_job_status q3 job_id JobStatus.running (9/10)
          "Optimization completed"
        let results := (simulation_result, optimization_result, env.metrics)
        let db2 : Db :=
          { experiments :=
              setExpStatus db.experiments job_id JobStatus.completed,
            results := db.results ++
              [⟨job_id, JobStatus.completed, some results, none, env.now⟩] }
        (update_job_status q4 job_id JobStatus.completed 1
           "Experiment completed successfully", db2)

/-! ## Helper lemmas -/

theorem isTerminal_false_ne_completed {s : JobStatus}
    (h : isTerminal s = false) : s ≠ JobStatus.completed := by
  cases s <;> simp_all [isTerminal]

theorem isTerminal_false_ne_failed {s : JobStatus}
    (h : isTerminal s = false) : s ≠ JobStatus.failed := by
  cases s <;> simp_all [isTerminal]

theorem resolveJob_of_terminal {job : JobRecord}
    (h : isTerminal job.status = true) : resolveJob job = job := by
  simp [resolveJob, h]

theorem resolveJob_doneOk {job : JobRecord}
    (hf : job.future = some FutureState.doneOk)
    (hnt : isTerminal job.status = false) :
    resolveJob job =
      { job with status := JobStatus.completed, progress := 1,
                 message := "Job completed" } := by
  simp [resolveJob, hf, futureDone, hnt, isTerminal_false_ne_failed hnt]

theorem resolveJob_doneErr {job : JobRecord} {e : String}
    (hf : job.future = some (FutureState.doneErr e))
    (hnt : isTerminal job.status = false) :
    resolveJob job =
      { job with status := JobStatus.failed, progress := 0,
                 message := "Job failed: " ++ e } := by
  simp [resolveJob, hf, futureDone, hnt]

theorem lookupJob_update_self {q : JobQueue} {id : String} {j : JobRecord}
    (st : JobStatus) (p : ℚ) (m : String) (h : lookupJob q id = some j) :
    lookupJob (update_job_status q id st p m) id =
      some { j with status := st, progress := p, message := m } := by
  simp [update_job_status, h, lookupJob_setJob_self]

theorem lookupJob_enqueue_self (q : JobQueue) (id : String) (now : ℚ)
    (fut : FutureState) :
    lookupJob (enqueue_job q id now fut) id =
      some ⟨JobStatus.running, 0, "Job queued", now, some fut⟩ := by
  simp [enqueue_job, lookupJob_setJob_self]

/-! ## Claim C9 -/

theorem update_status_unknown_noop_helper (q : JobQueue) (id : String)
    (st : JobStatus) (p : ℚ) (m : String) (h : lookupJob q id = none) :
    update_job_status q id st p m = q := by
  simp [update_job_status, h]

/-- Claim C9: calling `update_job_status` with an identifier that is not
registered in the job table is a silent no-op — it raises nothing and
leaves the whole table (hence every record) unchanged. -/
theorem update_status_unknown_noop (q : JobQueue) (id : String)
    (st : JobStatus) (p : ℚ) (m : String) (h : lookupJob q id = none) :
    update_job_status q id st p m = q :=
  update_status_unknown_noop_helper q id st p m h

theorem update_status_unknown_noop_witness :
    lookupJob [("a", (⟨JobStatus.running, 0, "m", 0, none⟩ : JobRecord))]
        "b" = none ∧
    update_job_status
        [("a", (⟨JobStatus.running, 0, "m", 0, none⟩ : JobRecord))]
        "b" JobStatus.failed 1 "x" =
      [("a", (⟨JobStatus.running, 0, "m", 0, none⟩ : JobRecord))] :=
  ⟨by decide, update_status_unknown_noop _ "b" JobStatus.failed 1 "x"
    (by decide)⟩

/-! ## Claim C1 -/

/-- Claim C1 counterexample: a job whose status was set to the terminal
`completed` is moved to `failed` by a subsequent `update_job_status`
call, and a later `get_job_status` then reports `failed`, not the
original terminal status: terminal states are not absorbing under
`update_job_status`, which overwrites unconditionally. -/
theorem update_status_escapes_terminal :
    (lookupJob (update_job_status
        [("j", (⟨JobStatus.completed, 1, "Job completed", 0,
                 some FutureState.doneOk⟩ : JobRecord))]
        "j" JobStatus.failed 0 "x") "j").map JobRecord.status =
      some JobStatus.failed ∧
    (get_job_status (update_job_status
        [("j", (⟨JobStatus.completed, 1, "Job completed", 0,
                 some FutureState.doneOk⟩ : JobRecord))]
        "j" JobStatus.failed 0 "x") "j").1.status = JobStatus.failed ∧
    JobStatus.failed ≠ JobStatus.completed := by
  refine ⟨by decide, by decide, by decide⟩

theorem get_status_preserves_terminal_helper {q : JobQueue} {id : String}
    {job : JobRecord} (hq : lookupJob q id = some job)
    (ht : isTerminal job.status = true) :
    (get_job_status q id).1.status = job.status ∧
    lookupJob (get_job_status q id).2 id = some job := by
  simp [get_job_status, hq, resolveJob_of_terminal ht, lookupJob_setJob_self]

/-- Claim C1 (amended): once a job record is in a terminal status
(completed or failed), `get_job_status` polls never change it — every
later poll returns the same terminal status and leaves the record
unchanged. The original claim fails for `update_job_status`, which
overwrites terminal statuses unconditionally. -/
theorem get_status_preserves_terminal_status (q : JobQueue) (id : String)
    (job : JobRecord) (hq : lookupJob q id = some job)
    (ht : isTerminal job.status = true) :
    (get_job_status q id).1.status = job.status ∧
    lookupJob (get_job_status q id).2 id = some job :=
  get_status_preserves_terminal_helper hq ht

theorem get_status_preserves_terminal_status_witness :
    lookupJob [("j", (⟨JobStatus.failed, 0, "Job failed: boom", 0,
        some FutureState.doneOk⟩ : JobRecord))] "j" =
      some ⟨JobStatus.failed, 0, "Job failed: boom", 0,
        some FutureState.doneOk⟩ ∧
    isTerminal JobStatus.failed = true ∧
    (get_job_status [("j", (⟨JobStatus.failed, 0, "Job failed: boom", 0,
        some FutureState.doneOk⟩ : JobRecord))] "j").1.status =
      JobStatus.failed :=
  ⟨by decide, by decide,
   (get_status_preserves_terminal_status
      [("j", (⟨JobStatus.failed, 0, "Job failed: boom", 0,
          some FutureState.doneOk⟩ : JobRecord))] "j"
      ⟨JobStatus.failed, 0, "Job failed: boom", 0, some FutureState.doneOk⟩
      (by decide) (by decide)).1⟩

/-! ## Claim C3 -/

/-- Claim C3 counterexample: enqueueing an identifier that is already
registered does not fail — it silently replaces the existing record
(here a completed record created at time 5) with a fresh running record,
contradicting "for every already-present identifier it fails rather than
altering the existing record". -/
theorem enqueue_overwrites_existing_record :
    lookupJob
      (enqueue_job
        [("j", (⟨JobStatus.completed, 1, "done", 5,
                 some FutureState.doneOk⟩ : JobRecord))]
        "j" 7 FutureState.pending) "j" =
      some ⟨JobStatus.running, 0, "Job queued", 7,
            some FutureState.pending⟩ ∧
    (⟨JobStatus.running, 0, "Job queued", 7,
      some FutureState.pending⟩ : JobRecord) ≠
      ⟨JobStatus.completed, 1, "done", 5, some FutureState.doneOk⟩ := by
  refine ⟨by decide, by decide⟩

/-- Claim C3 (amended): `enqueue_job` always succeeds — for every
identifier, fresh or already registered, it installs a record that went
through status=queued/progress=0 and ends registered as running with the
submitted handle; a pre-existing record under the same identifier is
silently overwritten, never a cause of failure. -/
theorem enqueue_always_succeeds_running (q : JobQueue) (id : String)
    (now : ℚ) (fut : FutureState) :
    lookupJob (enqueue_job q id now fut) id =
      some ⟨JobStatus.running, 0, "Job queued", now, some fut⟩ :=
  lookupJob_enqueue_self q id now fut

/-! ## Claim C2 -/

theorem get_status_resolves_helper {q : JobQueue} {id : String}
    {job : JobRecord} (hq : lookupJob q id = some job)
    (hnt : isTerminal job.status = false) :
    (job.future = some FutureState.doneOk →
      (get_job_status q id).1 =
        ⟨JobStatus.completed, 1, "Job completed"⟩ ∧
      lookupJob (get_job_status q id).2 id =
        some { job with status := JobStatus.completed, progress := 1,
                        message := "Job completed" }) ∧
    (∀ e, job.future = some (FutureState.doneErr e) →
      (get_job_status q id).1 =
        ⟨JobStatus.failed, 0, "Job failed: " ++ e⟩ ∧
      lookupJob (get_job_status q id).2 id =
        some { job with status := JobStatus.failed, progress := 0,
                        message := "Job failed: " ++ e }) := by
  constructor
  · intro hf
    simp [get_job_status, hq, resolveJob_doneOk hf hnt, lookupJob_setJob_self]
  · intro e hf
    simp [get_job_status, hq, resolveJob_doneErr hf hnt, lookupJob_setJob_self]

/-- Claim C2: for a registered job that is not yet terminal and whose
future handle is done, `get_job_status` lazily resolves it — normal
completion yields status=completed, progress=1.0, message "Job
completed"; a raised fault yields status=failed, progress=0.0, message
"Job failed: " followed by the fault's description — and both the
returned view and the stored record reflect the resolution. -/
theorem get_status_resolves_done_future (q : JobQueue) (id : String)
    (job : JobRecord) (hq : lookupJob q id = some job)
    (hnt : isTerminal job.status = false) :
    (job.future = some FutureState.doneOk →
      (get_job_status q id).1 =
        ⟨JobStatus.completed, 1, "Job completed"⟩ ∧
      lookupJob (get_job_status q id).2 id =
        some { job with status := JobStatus.completed, progress := 1,
                        message := "Job completed" }) ∧
    (∀ e, job.future = some (FutureState.doneErr e) →
      (get_job_status q id).1 =
        ⟨JobStatus.failed, 0, "Job failed: " ++ e⟩ ∧
      lookupJob (get_job_status q id).2 id =
        some { job with status := JobStatus.failed, progress := 0,
                        message := "Job failed: " ++ e }) :=
  get_status_resolves_helper hq hnt

theorem get_status_resolves_done_future_witness :
    lookupJob [("a", (⟨JobStatus.running, 0, "Model loaded", 0,
        some FutureState.doneOk⟩ : JobRecord))] "a" =
      some ⟨JobStatus.running, 0, "Model loaded", 0,
        some FutureState.doneOk⟩ ∧
    isTerminal JobStatus.running = false ∧
    (get_job_status [("a", (⟨JobStatus.running, 0, "Model loaded", 0,
        some FutureState.doneOk⟩ : JobRecord))] "a").1 =
      ⟨JobStatus.completed, 1, "Job completed"⟩ ∧
    (get_job_status [("b", (⟨JobStatus.running, 0, "Model loaded", 0,
        some (FutureState.doneErr "boom")⟩ : JobRecord))] "b").1 =
      ⟨JobStatus.failed, 0, "Job failed: boom"⟩ :=
  ⟨by decide, by decide,
   ((get_status_resolves_done_future
      [("a", (⟨JobStatus.running, 0, "Model loaded", 0,
          some FutureState.doneOk⟩ : JobRecord))] "a"
      ⟨JobStatus.running, 0, "Model loaded", 0, some FutureState.doneOk⟩
      (by decide) (by decide)).1 rfl).1,
   (((get_status_resolves_done_future
      [("b", (⟨JobStatus.running, 0, "Model loaded", 0,
          some (FutureState.doneErr "boom")⟩ : JobRecord))] "b"
      ⟨JobStatus.running, 0, "Model loaded", 0,
        some (FutureState.doneErr "boom")⟩
      (by decide) (by decide)).2 "boom") rfl).1⟩

/-! ## Claim C6 -/

theorem optimize_success_helper {model : Model} {alpha max_temp : ℚ}
    {solver : MinProblem → Nat → MinimizeResult}
    (hs : (solver (optProblem model alpha max_temp) 0).success = true)
    (hb : inOptBounds max_temp (solver (optProblem model alpha max_temp) 0)) :
    ∃ p t v, optimize_fuel_mixture model alpha max_temp solver =
        OptResult.success p t v ∧
      2 ≤ p.O_F_ratio ∧ p.O_F_ratio ≤ 6 ∧
      1 ≤ p.pressure ∧ p.pressure ≤ 10 ∧
      2500 ≤ p.temp ∧ p.temp ≤ 5000 ∧
      p.isp = 300 ∧ p.temp ≤ max_temp := by
  obtain ⟨h1, h2, h3, h4, h5, h6, h7⟩ := hb
  have heq : optimize_fuel_mixture model alpha max_temp solver =
      OptResult.success
        ⟨(solver (optProblem model alpha max_temp) 0).x0,
         (solver (optProblem model alpha max_temp) 0).x1,
         (solver (optProblem model alpha max_temp) 0).x2, 300⟩
        (simulate ⟨(solver (optProblem model alpha max_temp) 0).x0,
                   (solver (optProblem model alpha max_temp) 0).x1,
                   (solver (optProblem model alpha max_temp) 0).x2, 300⟩
          model).thrust
        (solver (optProblem model alpha max_temp) 0).fval := by
    simp [optimize_fuel_mixture, hs]
  exact ⟨_, _, _, heq, h1, h2, h3, h4, h5, h6, rfl, h7⟩

/-- Claim C6: whenever `optimize_fuel_mixture` returns with the success
flag set and the solver point it propagates lies in the declared search
box and satisfies the inequality constraint (the contract of the bounded
constrained minimizer), the returned optimal configuration satisfies
every declared bound — O/F ratio in [2,6], pressure in [1,10],
temperature in [2500,5000] — has impulse fixed at the constant 300, and
satisfies temperature ≤ max_temp. -/
theorem optimize_success_respects_bounds (model : Model)
    (alpha max_temp : ℚ) (solver : MinProblem → Nat → MinimizeResult)
    (hs : (solver (optProblem model alpha max_temp) 0).success = true)
    (hb : inOptBounds max_temp (solver (optProblem model alpha max_temp) 0)) :
    ∃ p t v, optimize_fuel_mixture model alpha max_temp solver =
        OptResult.success p t v ∧
      2 ≤ p.O_F_ratio ∧ p.O_F_ratio ≤ 6 ∧
      1 ≤ p.pressure ∧ p.pressure ≤ 10 ∧
      2500 ≤ p.temp ∧ p.temp ≤ 5000 ∧
      p.isp = 300 ∧ p.temp ≤ max_temp :=
  optimize_success_helper hs hb

theorem optimize_success_respects_bounds_witness :
    ((fun _ _ => (⟨true, 3, 5, 3000, 42, "ok"⟩ : MinimizeResult)) :
        MinProblem → Nat → MinimizeResult)
      (optProblem ⟨fun _ _ _ _ => 100⟩ (1/2) 4000) 0 =
      ⟨true, 3, 5, 3000, 42, "ok"⟩ ∧
    inOptBounds 4000 (⟨true, 3, 5, 3000, 42, "ok"⟩ : MinimizeResult) ∧
    (∃ p t v, optimize_fuel_mixture ⟨fun _ _ _ _ => 100⟩ (1/2) 4000
        (fun _ _ => ⟨true, 3, 5, 3000, 42, "ok"⟩) =
        OptResult.success p t v ∧
      2 ≤ p.O_F_ratio ∧ p.O_F_ratio ≤ 6 ∧
      1 ≤ p.pressure ∧ p.pressure ≤ 10 ∧
      2500 ≤ p.temp ∧ p.temp ≤ 5000 ∧
      p.isp = 300 ∧ p.temp ≤ 4000) :=
  ⟨rfl, by constructor <;> norm_num,
   optimize_success_respects_bounds ⟨fun _ _ _ _ => 100⟩ (1/2) 4000
     (fun _ _ => ⟨true, 3, 5, 3000, 42, "ok"⟩) rfl
     (by constructor <;> norm_num)⟩

/-! ## Claim C7 -/

theorem optimize_nonconvergence_helper {model : Model} {alpha max_temp : ℚ}
    {solver : MinProblem → Nat → MinimizeResult}
    (hs : (solver (optProblem model alpha max_temp) 0).success = false) :
    optimize_fuel_mixture model alpha max_temp solver =
      OptResult.failure
        (solver (optProblem model alpha max_temp) 0).message ∧
    ∀ solver2 : MinProblem → Nat → MinimizeResult,
      (∀ p, solver2 p 0 = solver p 0) →
      optimize_fuel_mixture model alpha max_temp solver2 =
        optimize_fuel_mixture model alpha max_temp solver := by
  constructor
  · simp [optimize_fuel_mixture, hs]
  · intro solver2 hagree
    simp [optimize_fuel_mixture, hagree]

/-- Claim C7: when the minimizer reports non-convergence (success flag
false), `optimize_fuel_mixture` returns a structured failure value
carrying the solver's diagnostic message instead of raising, and no
retry occurs — the outcome depends only on the first solver invocation,
so any solver agreeing on invocation 0 produces the same result. -/
theorem optimize_nonconvergence_structured_failure (model : Model)
    (alpha max_temp : ℚ) (solver : MinProblem → Nat → MinimizeResult)
    (hs : (solver (optProblem model alpha max_temp) 0).success = false) :
    optimize_fuel_mixture model alpha max_temp solver =
      OptResult.failure
        (solver (optProblem model alpha max_temp) 0).message ∧
    ∀ solver2 : MinProblem → Nat → MinimizeResult,
      (∀ p, solver2 p 0 = solver p 0) →
      optimize_fuel_mixture model alpha max_temp solver2 =
        optimize_fuel_mixture model alpha max_temp solver :=
  optimize_nonconvergence_helper hs

theorem optimize_nonconvergence_structured_failure_witness :
    ((fun _ _ => (⟨false, 0, 0, 0, 0,
        "Iteration limit reached"⟩ : MinimizeResult)) :
        MinProblem → Nat → MinimizeResult)
      (optProblem ⟨fun _ _ _ _ => 100⟩ (1/2) 4000) 0 =
      ⟨false, 0, 0, 0, 0, "Iteration limit reached"⟩ ∧
    optimize_fuel_mixture ⟨fun _ _ _ _ => 100⟩ (1/2) 4000
        (fun _ _ => ⟨false, 0, 0, 0, 0, "Iteration limit reached"⟩) =
      OptResult.failure "Iteration limit reached" :=
  ⟨rfl,
   (optimize_nonconvergence_structured_failure ⟨fun _ _ _ _ => 100⟩
      (1/2) 4000
      (fun _ _ => ⟨false, 0, 0, 0, 0, "Iteration limit reached"⟩)
      rfl).1⟩

/-! ## Claim C8 -/

theorem run_rejects_helper {st : ServerState} {raw : RawParams}
    (job_id : String) (now : ℚ) (fut : FutureState)
    (h : raw.O_F_ratio < 2 ∨ 6 < raw.O_F_ratio ∨
         raw.pressure < 1 ∨ 10 < raw.pressure ∨
         raw.temp < 2500 ∨ 5000 < raw.temp ∨
         raw.isp < 200 ∨ 450 < raw.isp ∨
         (∃ a, raw.alpha = some a ∧ (a < 0 ∨ 1 < a))) :
    run_experiment st raw job_id now fut =
      (RunResponse.validationError 422, st) := by
  have hv : ¬ (paramsValid raw = true) := by
    intro hvt
    simp only [paramsValid, Bool.and_eq_true, decide_eq_true_eq] at hvt
    obtain ⟨⟨⟨⟨⟨⟨⟨⟨h1, h2⟩, h3⟩, h4⟩, h5⟩, h6⟩, h7⟩, h8⟩, h9⟩ := hvt
    rcases h with h|h|h|h|h|h|h|h|⟨a, ha, hh⟩
    · linarith
    · linarith
    · linarith
    · linarith
    · linarith
    · linarith
    · linarith
    · linarith
    · rw [ha] at h9
      simp only [Bool.and_eq_true, decide_eq_true_eq] at h9
      rcases hh with hh | hh <;> linarith [h9.1, h9.2]
  have hv2 : paramsValid raw = false := by simpa using hv
  simp [run_experiment, hv2]

/-- Claim C8: a `POST /run` request with any of the four required
physical parameters outside its declared bound (O_F_ratio outside [2,6],
pressure outside [1,10], temp outside [2500,5000], isp outside
[200,450]) or alpha outside [0,1] is rejected with the 422 validation
error and the server state — the experiments table and the job queue —
is left exactly as it was: no experiment row is persisted and no job is
enqueued. -/
theorem run_rejects_out_of_bound_params (st : ServerState)
    (raw : RawParams) (job_id : String) (now : ℚ) (fut : FutureState)
    (h : raw.O_F_ratio < 2 ∨ 6 < raw.O_F_ratio ∨
         raw.pressure < 1 ∨ 10 < raw.pressure ∨
         raw.temp < 2500 ∨ 5000 < raw.temp ∨
         raw.isp < 200 ∨ 450 < raw.isp ∨
         (∃ a, raw.alpha = some a ∧ (a < 0 ∨ 1 < a))) :
    run_experiment st raw job_id now fut =
      (RunResponse.validationError 422, st) :=
  run_rejects_helper job_id now fut h

theorem run_rejects_out_of_bound_params_witness :
    (6 : ℚ) < (RawParams.mk 10 5 3000 300 none none none).O_F_ratio ∧
    run_experiment ⟨⟨[], []⟩, []⟩ ⟨10, 5, 3000, 300, none, none, none⟩
        "j" 0 FutureState.pending =
      (RunResponse.validationError 422, ⟨⟨[], []⟩, []⟩) :=
  ⟨by norm_num,
   run_rejects_out_of_bound_params ⟨⟨[], []⟩, []⟩
     ⟨10, 5, 3000, 300, none, none, none⟩ "j" 0 FutureState.pending
     (Or.inr (Or.inl (by norm_num)))⟩

/-! ## Claim C10 -/

theorem lookupJob_taskFailPath {q : JobQueue} {id : String} {j : JobRecord}
    (e : String) (env : TaskEnv) (db : Db) (h : lookupJob q id = some j) :
    lookupJob (taskFailPath id e env q db).1 id =
      some { j with status := JobStatus.failed, progress := 0,
                    message := "Experiment failed: " ++ e } := by
  simpa [taskFailPath] using
    lookupJob_update_self JobStatus.failed 0 ("Experiment failed: " ++ e) h

theorem task_fault_lookup {env : TaskEnv} {id : String} {aP : Bool}
    {q : JobQueue} {db : Db} {j : JobRecord} {e : String}
    (hq : lookupJob q id = some j)
    (hcase : env.modelLoad = Except.error e ∨
      (env.modelLoad = Except.ok () ∧ env.simOutcome = Except.error e) ∨
      (env.modelLoad = Except.ok () ∧ (∃ s, env.simOutcome = Except.ok s) ∧
        aP = true ∧ env.optOutcome = Except.error e)) :
    ∃ j2, lookupJob (run_experiment_task env id aP q db).1 id = some j2 ∧
      j2.progress = 0 ∧ j2.status = JobStatus.failed := by
  have h1 := lookupJob_update_self JobStatus.running (1/10)
    "Starting experiment" hq
  rcases hcase with hml | ⟨hml, hsim⟩ | ⟨hml, ⟨s, hsim⟩, hap, hopt⟩
  · simp only [run_experiment_task, hml]
    exact ⟨_, lookupJob_taskFailPath e env db h1, rfl, rfl⟩
  · have h2 := lookupJob_update_self JobStatus.running (3/10)
      "Model loaded" h1
    simp only [run_experiment_task, hml, hsim]
    exact ⟨_, lookupJob_taskFailPath e env db h2, rfl, rfl⟩
  · have h2 := lookupJob_update_self JobStatus.running (3/10)
      "Model loaded" h1
    have h3 := lookupJob_update_self JobStatus.running (6/10)
      "Simulation completed" h2
    simp only [run_experiment_task, hml, hsim, hap, hopt, if_true,
      Except.map]
    exact ⟨_, lookupJob_taskFailPath e env db h3, rfl, rfl⟩

theorem resolveJob_doneErr_progress {q : JobQueue} {id : String}
    {job : JobRecord} {e : String} (hq : lookupJob q id = some job)
    (hf : job.future = some (FutureState.doneErr e))
    (hnt : isTerminal job.status = false) :
    (get_job_status q id).1.progress = 0 ∧
    (lookupJob (get_job_status q id).2 id).map JobRecord.progress =
      some 0 := by
  simp [get_job_status, hq, resolveJob_doneErr hf hnt, lookupJob_setJob_self]

/-- Claim C10: when a `get_job_status` poll resolves a done future that
raised, the record's progress is reset to 0.0 no matter what
intermediate progress the task had pushed; and whenever
`_run_experiment_task` hits a fault (at model load, simulation, or
optimization), the job record it leaves behind carries status failed and
progress 0.0. -/
theorem failed_job_progress_reset :
    (∀ (q : JobQueue) (id : String) (job : JobRecord) (e : String),
       lookupJob q id = some job →
       job.future = some (FutureState.doneErr e) →
       isTerminal job.status = false →
       (get_job_status q id).1.progress = 0 ∧
       (lookupJob (get_job_status q id).2 id).map JobRecord.progress =
         some 0) ∧
    (∀ (env : TaskEnv) (id : String) (aP : Bool) (q : JobQueue) (db : Db)
       (j : JobRecord) (e : String),
       lookupJob q id = some j →
       (env.modelLoad = Except.error e ∨
        (env.modelLoad = Except.ok () ∧ env.simOutcome = Except.error e) ∨
        (env.modelLoad = Except.ok () ∧
         (∃ s, env.simOutcome = Except.ok s) ∧
         aP = true ∧ env.optOutcome = Except.error e)) →
       ∃ j2, lookupJob (run_experiment_task env id aP q db).1 id =
           some j2 ∧ j2.progress = 0 ∧ j2.status = JobStatus.failed) :=
  ⟨fun _ _ _ _ hq hf hnt => resolveJob_doneErr_progress hq hf hnt,
   fun _ _ _ _ _ _ _ hq hcase => task_fault_lookup hq hcase⟩

theorem failed_job_progress_reset_witness :
    lookupJob [("j", (⟨JobStatus.running, 1, "almost done", 0,
        some (FutureState.doneErr "boom")⟩ : JobRecord))] "j" =
      some ⟨JobStatus.running, 1, "almost done", 0,
        some (FutureState.doneErr "boom")⟩ ∧
    isTerminal JobStatus.running = false ∧
    (get_job_status [("j", (⟨JobStatus.running, 1, "almost done", 0,
        some (FutureState.doneErr "boom")⟩ : JobRecord))] "j").1.progress
      = 0 ∧
    (∃ j2, lookupJob (run_experiment_task
        ⟨Except.ok (), Except.error "boom",
         Except.ok (OptResult.failure "x"), [], 0⟩ "j" false
        [("j", (⟨JobStatus.running, 0, "Job queued", 0,
            some FutureState.pending⟩ : JobRecord))] ⟨[], []⟩).1 "j" =
        some j2 ∧ j2.progress = 0 ∧ j2.status = JobStatus.failed) :=
  ⟨by decide, by decide,
   (failed_job_progress_reset.1
      [("j", (⟨JobStatus.running, 1, "almost done", 0,
          some (FutureState.doneErr "boom")⟩ : JobRecord))] "j"
      ⟨JobStatus.running, 1, "almost done", 0,
        some (FutureState.doneErr "boom")⟩ "boom"
      (by decide) rfl (by decide)).1,
   failed_job_progress_reset.2
      ⟨Except.ok (), Except.error "boom",
       Except.ok (OptResult.failure "x"), [], 0⟩ "j" false
      [("j", (⟨JobStatus.running, 0, "Job queued", 0,
          some FutureState.pending⟩ : JobRecord))] ⟨[], []⟩
      ⟨JobStatus.running, 0, "Job queued", 0, some FutureState.pending⟩
      "boom" (by decide) (Or.inr (Or.inl ⟨rfl, rfl⟩))⟩

/-! ## Claim C5 -/

theorem task_single_result_helper (env : TaskEnv) (id : String) (aP : Bool)
    (q : JobQueue) (db : Db) :
    ∃ r : ResultRecord,
      (run_experiment_task env id aP q db).2.results = db.results ++ [r] ∧
      r.experiment_id = id ∧
      (∀ sim, env.modelLoad = Except.ok () →
        env.simOutcome = Except.ok sim →
        (aP = false →
          r = ⟨id, JobStatus.completed, some (sim, none, env.metrics),
               none, env.now⟩) ∧
        (∀ o, aP = true → env.optOutcome = Except.ok o →
          r = ⟨id, JobStatus.completed, some (sim, some o, env.metrics),
               none, env.now⟩)) ∧
      (∀ e, env.modelLoad = Except.error e →
        r = ⟨id, JobStatus.failed, none, some e, env.now⟩) ∧
      (∀ e, env.modelLoad = Except.ok () →
        env.simOutcome = Except.error e →
        r = ⟨id, JobStatus.failed, none, some e, env.now⟩) ∧
      (∀ sim e, env.modelLoad = Except.ok () →
        env.simOutcome = Except.ok sim → aP = true →
        env.optOutcome = Except.error e →
        r = ⟨id, JobStatus.failed, none, some e, env.now⟩) := by
  match hml : env.modelLoad with
  | Except.error e =>
    refine ⟨⟨id, JobStatus.failed, none, some e, env.now⟩, ?_, rfl,
            ?_, ?_, ?_, ?_⟩
    · simp [run_experiment_task, hml, taskFailPath]
    · intro sim hok
      exact absurd hok (by simp)
    · intro e2 he2
      injection he2 with h
      rw [h]
    · intro e2 hok
      exact absurd hok (by simp)
    · intro sim e2 hok
      exact absurd hok (by simp)
  | Except.ok u =>
    cases u
    match hsim : env.simOutcome with
    | Except.error e =>
      refine ⟨⟨id, JobStatus.failed, none, some e, env.now⟩, ?_, rfl,
              ?_, ?_, ?_, ?_⟩
      · simp [run_experiment_task, hml, hsim, taskFailPath]
      · intro sim _ hsim2
        exact absurd hsim2 (by simp)
      · intro e2 he2
        exact absurd he2 (by simp)
      · intro e2 _ hs2
        injection hs2 with h
        rw [h]
      · intro sim e2 _ hsim2
        exact absurd hsim2 (by simp)
    | Except.ok sim =>
      cases aP with
      | false =>
        refine ⟨⟨id, JobStatus.completed, some (sim, none, env.metrics),
                 none, env.now⟩, ?_, rfl, ?_, ?_, ?_, ?_⟩
        · simp [run_experiment_task, hml, hsim]
        · intro sim2 _ hsim2
          injection hsim2 with h
          constructor
          · intro _
            rw [← h]
          · intro o hff
            exact absurd hff (by simp)
        · intro e2 he2
          exact absurd he2 (by simp)
        · intro e2 _ hs2
          exact absurd hs2 (by simp)
        · intro sim2 e2 _ _ hff
          exact absurd hff (by simp)
      | true =>
        match hopt : env.optOutcome with
        | Except.error e =>
          refine ⟨⟨id, JobStatus.failed, none, some e, env.now⟩, ?_, rfl,
                  ?_, ?_, ?_, ?_⟩
          · simp [run_experiment_task, hml, hsim, hopt, Except.map,
              taskFailPath]
          · intro sim2 _ hsim2
            constructor
            · intro hff
              exact absurd hff (by simp)
            · intro o _ hopt2
              exact absurd hopt2 (by simp)
          · intro e2 he2
            exact absurd he2 (by simp)
          · intro e2 _ hs2
            exact absurd hs2 (by simp)
          · intro sim2 e2 _ hsim2 _ hopt2
            injection hopt2 with h
            rw [h]
        | Except.ok o =>
          refine ⟨⟨id, JobStatus.completed,
                   some (sim, some o, env.metrics), none, env.now⟩,
                  ?_, rfl, ?_, ?_, ?_, ?_⟩
          · simp [run_experiment_task, hml, hsim, hopt, Except.map]
          · intro sim2 _ hsim2
            injection hsim2 with h
            constructor
            · intro hff
              exact absurd hff (by simp)
            · intro o2 _ hopt2
              injection hopt2 with h2
              rw [← h, ← h2]
          · intro e2 he2
            exact absurd he2 (by simp)
          · intro e2 _ hs2
            exact absurd hs2 (by simp)
          · intro sim2 e2 _ _ _ hopt2
            exact absurd hopt2 (by simp)

/-- Claim C5: every execution of `_run_experiment_task` appends exactly
one Result record, pinned exactly in every case: a fault-free execution
yields the completed record carrying the simulation payload and, when
optimization was requested, the optimization payload; a fault at the
model-load, simulation, or optimization step yields the failed record
carrying that fault's textual description and no data. In particular,
when the simulation step already succeeded and the optimization step
then raised, the single record written is the failed one and the
simulation payload is not recorded. -/
theorem task_all_or_nothing_single_result (env : TaskEnv) (id : String)
    (aP : Bool) (q : JobQueue) (db : Db) :
    ∃ r : ResultRecord,
      (run_experiment_task env id aP q db).2.results = db.results ++ [r] ∧
      r.experiment_id = id ∧
      (∀ sim, env.modelLoad = Except.ok () →
        env.simOutcome = Except.ok sim →
        (aP = false →
          r = ⟨id, JobStatus.completed, some (sim, none, env.metrics),
               none, env.now⟩) ∧
        (∀ o, aP = true → env.optOutcome = Except.ok o →
          r = ⟨id, JobStatus.completed, some (sim, some o, env.metrics),
               none, env.now⟩)) ∧
      (∀ e, env.modelLoad = Except.error e →
        r = ⟨id, JobStatus.failed, none, some e, env.now⟩) ∧
      (∀ e, env.modelLoad = Except.ok () →
        env.simOutcome = Except.error e →
        r = ⟨id, JobStatus.failed, none, some e, env.now⟩) ∧
      (∀ sim e, env.modelLoad = Except.ok () →
        env.simOutcome = Except.ok sim → aP = true →
        env.optOutcome = Except.error e →
        r = ⟨id, JobStatus.failed, none, some e, env.now⟩) :=
  task_single_result_helper env id aP q db

theorem task_all_or_nothing_single_result_witness :
    ∃ r : ResultRecord,
      (run_experiment_task
        ⟨Except.ok (), Except.ok ⟨980, 2, 1, ⟨4, 5, 3000, 300⟩⟩,
         Except.error "solver blew up", [("mae", 3)], 9⟩
        "j" true [] ⟨[], []⟩).2.results = [] ++ [r] ∧
      r.experiment_id = "j" ∧
      (∀ sim, (Except.ok () : Except String Unit) = Except.ok () →
        (Except.ok ⟨980, 2, 1, ⟨4, 5, 3000, 300⟩⟩ :
          Except String SimResult) = Except.ok sim →
        (true = false →
          r = ⟨"j", JobStatus.completed, some (sim, none, [("mae", 3)]),
               none, 9⟩) ∧
        (∀ o, true = true →
          (Except.error "solver blew up" : Except String OptResult) =
            Except.ok o →
          r = ⟨"j", JobStatus.completed,
               some (sim, some o, [("mae", 3)]), none, 9⟩)) ∧
      (∀ e, (Except.ok () : Except String Unit) = Except.error e →
        r = ⟨"j", JobStatus.failed, none, some e, 9⟩) ∧
      (∀ e, (Except.ok () : Except String Unit) = Except.ok () →
        (Except.ok ⟨980, 2, 1, ⟨4, 5, 3000, 300⟩⟩ :
          Except String SimResult) = Except.error e →
        r = ⟨"j", JobStatus.failed, none, some e, 9⟩) ∧
      (∀ sim e, (Except.ok () : Except String Unit) = Except.ok () →
        (Except.ok ⟨980, 2, 1, ⟨4, 5, 3000, 300⟩⟩ :
          Except String SimResult) = Except.ok sim → true = true →
        (Except.error "solver blew up" : Except String OptResult) =
          Except.error e →
        r = ⟨"j", JobStatus.failed, none, some e, 9⟩) :=
  task_all_or_nothing_single_result
    ⟨Except.ok (), Except.ok ⟨980, 2, 1, ⟨4, 5, 3000, 300⟩⟩,
     Except.error "solver blew up", [("mae", 3)], 9⟩
    "j" true [] ⟨[], []⟩

/-! ## Claim C4 -/

/-- Is this operation an enqueue of the given identifier? -/
def isEnqFor (id : String) : Op → Bool
  | Op.enq id2 _ _ => decide (id2 = id)
  | _ => false

/-- Is this operation a cleanup call? -/
def isCleanOp : Op → Bool
  | Op.clean _ _ => true
  | _ => false

/-- Does this operation refrain from writing the reserved `not_found`
status into the given identifier's record? Every in-repo caller of
`update_job_status` passes running, completed, or failed, so this holds
of all operations the system actually performs. -/
def updStatusOk (id : String) : Op → Bool
  | Op.upd id2 st _ _ =>
      !(decide (id2 = id) && decide (st = JobStatus.not_found))
  | _ => true

theorem lookupJob_enqueue_other {q : JobQueue} {id id2 : String}
    (now : ℚ) (fut : FutureState) (h : id2 ≠ id) :
    lookupJob (enqueue_job q id2 now fut) id = lookupJob q id := by
  simp [enqueue_job, lookupJob_setJob_self,
    lookupJob_setJob_other _ _ _ _ h]

theorem lookupJob_filter_none {q : JobQueue} {id : String}
    (f : String × JobRecord → Bool) (h : lookupJob q id = none) :
    lookupJob (q.filter f) id = none := by
  induction q with
  | nil => simp [lookupJob]
  | cons kv rest ih =>
      obtain ⟨k, v⟩ := kv
      by_cases hk : k = id
      · simp [lookupJob, hk] at h
      · simp only [lookupJob, if_neg hk] at h
        cases hf : f (k, v) <;>
          simp [List.filter, hf, lookupJob, hk, ih h]

theorem lookup_none_preserved {q : JobQueue} {id : String} (op : Op)
    (h : lookupJob q id = none) (hop : isEnqFor id op = false) :
    lookupJob (applyOp q op) id = none := by
  cases op with
  | enq id2 now fut =>
      have hne : id2 ≠ id := by simpa [isEnqFor] using hop
      rw [applyOp, lookupJob_enqueue_other now fut hne]
      exact h
  | poll id2 =>
      cases hl : lookupJob q id2 with
      | none => simpa [applyOp, get_job_status, hl] using h
      | some j =>
          by_cases hid : id2 = id
          · subst hid
            rw [hl] at h
            exact absurd h (by simp)
          · simpa [applyOp, get_job_status, hl,
              lookupJob_setJob_other _ _ _ _ hid] using h
  | upd id2 st p m =>
      cases hl : lookupJob q id2 with
      | none => simpa [applyOp, update_job_status, hl] using h
      | some j =>
          by_cases hid : id2 = id
          · subst hid
            rw [hl] at h
            exact absurd h (by simp)
          · simpa [applyOp, update_job_status, hl,
              lookupJob_setJob_other _ _ _ _ hid] using h
  | clean nowTs maxAge =>
      simpa [applyOp, cleanup_completed_jobs] using
        lookupJob_filter_none _ h

theorem applyOps_cons (q : JobQueue) (op : Op) (ops : List Op) :
    applyOps q (op :: ops) = applyOps (applyOp q op) ops := rfl

theorem applyOps_lookup_none {id : String} :
    ∀ (ops : List Op) (q : JobQueue), lookupJob q id = none →
    ops.all (fun op => !(isEnqFor id op)) = true →
    lookupJob (applyOps q ops) id = none := by
  intro ops
  induction ops with
  | nil => intro q h _; simpa [applyOps] using h
  | cons op rest ih =>
      intro q h hall
      simp only [List.all_cons, Bool.and_eq_true, Bool.not_eq_true'] at hall
      rw [applyOps_cons]
      exact ih (applyOp q op) (lookup_none_preserved op h hall.1)
        (by simp only [List.all_eq_true] at hall ⊢; exact hall.2)

/-- The record of the given identifier exists and does not carry the
reserved `not_found` status. -/
def statusTracked (id : String) (q : JobQueue) : Prop :=
  ∃ j, lookupJob q id = some j ∧ j.status ≠ JobStatus.not_found

theorem resolveJob_status_or (j : JobRecord) :
    (resolveJob j).status = j.status ∨
    (resolveJob j).status = JobStatus.completed ∨
    (resolveJob j).status = JobStatus.failed := by
  unfold resolveJob
  split
  · split
    · split
      · right; left; rfl
      · left; rfl
    · right; right; rfl
    · left; rfl
  · left; rfl

theorem resolveJob_status_ne_nf {j : JobRecord}
    (h : j.status ≠ JobStatus.not_found) :
    (resolveJob j).status ≠ JobStatus.not_found := by
  rcases resolveJob_status_or j with hr | hr | hr <;> rw [hr] <;> simp_all

theorem tracked_preserved {q : JobQueue} {id : String} (op : Op)
    (h : statusTracked id q) (hcl : isCleanOp op = false)
    (hupd : updStatusOk id op = true) :
    statusTracked id (applyOp q op) := by
  obtain ⟨j, hj, hst⟩ := h
  cases op with
  | enq id2 now fut =>
      by_cases hid : id2 = id
      · subst hid
        exact ⟨_, by rw [applyOp]; exact lookupJob_enqueue_self q id2 now fut,
               by simp⟩
      · exact ⟨j, by rw [applyOp, lookupJob_enqueue_other now fut hid];
                     exact hj, hst⟩
  | poll id2 =>
      by_cases hid : id2 = id
      · subst hid
        refine ⟨resolveJob j, ?_, resolveJob_status_ne_nf hst⟩
        simp [applyOp, get_job_status, hj, lookupJob_setJob_self]
      · cases hl : lookupJob q id2 with
        | none => exact ⟨j, by simpa [applyOp, get_job_status, hl] using hj,
                         hst⟩
        | some j2 =>
            exact ⟨j, by simpa [applyOp, get_job_status, hl,
              lookupJob_setJob_other _ _ _ _ hid] using hj, hst⟩
  | upd id2 st p m =>
      by_cases hid : id2 = id
      · subst hid
        have hstne : st ≠ JobStatus.not_found := by
          simpa [updStatusOk] using hupd
        refine ⟨{ j with status := st, progress := p, message := m },
                ?_, hstne⟩
        simp [applyOp, update_job_status, hj, lookupJob_setJob_self]
      · cases hl : lookupJob q id2 with
        | none =>
            exact ⟨j, by simpa [applyOp, update_job_status, hl] using hj,
                   hst⟩
        | some j2 =>
            exact ⟨j, by simpa [applyOp, update_job_status, hl,
              lookupJob_setJob_other _ _ _ _ hid] using hj, hst⟩
  | clean nowTs maxAge => simp [isCleanOp] at hcl

theorem applyOps_tracked {id : String} :
    ∀ (ops : List Op) (q : JobQueue), statusTracked id q →
    ops.all (fun op => !(isCleanOp op) && updStatusOk id op) = true →
    statusTracked id (applyOps q ops) := by
  intro ops
  induction ops with
  | nil => intro q h _; simpa [applyOps] using h
  | cons op rest ih =>
      intro q h hall
      simp only [List.all_cons, Bool.and_eq_true, Bool.not_eq_true'] at hall
      rw [applyOps_cons]
      exact ih (applyOp q op)
        (tracked_preserved op h hall.1.1 hall.1.2)
        (by simp only [List.all_eq_true, Bool.and_eq_true,
              Bool.not_eq_true'] at hall ⊢;
            exact hall.2)

/-- Claim C4: along any sequence of queue operations, an identifier that
is never enqueued (starting from a table where it is unknown) is always
reported `not_found`; and an identifier that has been enqueued is never
reported `not_found` by any later poll, as long as no cleanup runs and
no update writes the reserved `not_found` status (no in-repo caller
does). -/
theorem not_found_iff_unknown :
    (∀ (q : JobQueue) (id : String) (ops : List Op),
       lookupJob q id = none →
       ops.all (fun op => !(isEnqFor id op)) = true →
       (get_job_status (applyOps q ops) id).1.status =
         JobStatus.not_found) ∧
    (∀ (q : JobQueue) (id : String) (now : ℚ) (fut : FutureState)
       (rest : List Op),
       rest.all (fun op => !(isCleanOp op) && updStatusOk id op) = true →
       (get_job_status
          (applyOps q (Op.enq id now fut :: rest)) id).1.status ≠
         JobStatus.not_found) := by
  constructor
  · intro q id ops h hall
    have hn := applyOps_lookup_none ops q h hall
    simp [get_job_status, hn]
  · intro q id now fut rest hall
    have htr : statusTracked id (enqueue_job q id now fut) :=
      ⟨_, lookupJob_enqueue_self q id now fut, by simp⟩
    rw [applyOps_cons]
    obtain ⟨j, hj, hst⟩ :=
      applyOps_tracked rest (applyOp q (Op.enq id now fut))
        (by rw [applyOp]; exact htr) hall
    simp [get_job_status, hj]
    exact resolveJob_status_ne_nf hst

theorem not_found_iff_unknown_witness :
    lookupJob ([] : JobQueue) "x" = none ∧
    ([Op.poll "y"] : List Op).all (fun op => !(isEnqFor "x" op)) = true ∧
    (get_job_status (applyOps [] [Op.poll "y"]) "x").1.status =
      JobStatus.not_found ∧
    ([Op.upd "j" JobStatus.completed 1 "done"] : List Op).all
      (fun op => !(isCleanOp op) && updStatusOk "j" op) = true ∧
    (get_job_status (applyOps []
       (Op.enq "j" 0 FutureState.pending ::
        [Op.upd "j" JobStatus.completed 1 "done"])) "j").1.status ≠
      JobStatus.not_found :=
  ⟨by decide, by decide,
   not_found_iff_unknown.1 [] "x" [Op.poll "y"] (by decide) (by decide),
   by decide,
   not_found_iff_unknown.2 [] "j" 0 FutureState.pending
     [Op.upd "j" JobStatus.completed 1 "done"] (by decide)⟩

end RFO
